import Mathlib

/-!
Verification of the monmon-dashboard energy data server.

The source is a small Express server (src/server.js and a second variant,
src/unnamed/part_000) that fetches commodity quotes, caches an aggregated
snapshot for five minutes, and derives crack/spread metrics.  JavaScript
numbers are modelled as exact rationals (ℚ); the arithmetic in the source
never relies on floating-point rounding for the claims treated here, except
where noted in doc comments.  Optional JS values (`undefined` via `?.`) are
modelled as `Option ℚ` / `Option Quote`, and JS falsiness of a number
(`!x` true for `0` and `undefined`) by `jsFalsy`.
-/

namespace MonMon

/-- A quote record, as built throughout the source:
`{ price, change, changePercent, previousClose }`. -/
structure Quote where
  price : ℚ
  change : ℚ
  changePercent : ℚ
  previousClose : ℚ
  deriving DecidableEq, Repr

/-- JS falsiness of a possibly-undefined number: `!x` is true exactly when the
value is `undefined` or `0` (NaN does not arise in the rational model). -/
def jsFalsy (o : Option ℚ) : Bool :=
  match o with
  | none => true
  | some x => x == 0

/-- Embeds `calculateCrack` (src/unnamed/part_000:200-211):
if either argument is falsy return 0; otherwise convert the product price to
$/barrel by multiplying by 42 when it is below 10 (heuristic for $/gallon),
and subtract the crude price. -/
def calculateCrack (crudePrice productPrice : Option ℚ) : ℚ :=
  if jsFalsy crudePrice || jsFalsy productPrice then 0
  else
    let c := crudePrice.getD 0
    let p := productPrice.getD 0
    let productBarrel := if p < 10 then p * 42 else p
    productBarrel - c

/-- Embeds `calculateCrack321` (src/server.js:242-252):
if any argument is falsy return 0; otherwise convert both product prices to
$/barrel by multiplying by 42 (unconditionally), and return
`((2*rbobBarrel + hoBarrel) / 3) - wti`. -/
def calculateCrack321 (wti rbob ho : Option ℚ) : ℚ :=
  if jsFalsy wti || jsFalsy rbob || jsFalsy ho then 0
  else
    let w := wti.getD 0
    let r := rbob.getD 0
    let h := ho.getD 0
    let rbobBarrel := r * 42
    let hoBarrel := h * 42
    ((2 * rbobBarrel + hoBarrel) / 3) - w

/-- The per-product $/gallon→$/barrel normalization rule of `calculateCrack`
(src/unnamed/part_000:204-207): multiply by 42 exactly when the price is
below 10. -/
def normalizeProduct (p : ℚ) : ℚ :=
  if p < 10 then p * 42 else p

/-- Spec-side variant of the 3-2-1 crack, written from the spec sentence
"All crack variants share the same $/gallon→$/barrel normalization rule":
each product price is normalized by `normalizeProduct` (multiply by 42 iff
below 10) before the 3-2-1 combination.  To be compared with the source's
`calculateCrack321`, which multiplies unconditionally. -/
def crack321_specNormalized (wti rbob ho : Option ℚ) : ℚ :=
  if jsFalsy wti || jsFalsy rbob || jsFalsy ho then 0
  else
    ((2 * normalizeProduct (rbob.getD 0) + normalizeProduct (ho.getD 0)) / 3)
      - wti.getD 0

/-- Embeds `estimateFuelOil05` (src/unnamed/part_000:141-155): default the
benchmark to 71.80 when falsy, add a fixed premium of 4.0, and synthesize a
fixed change of 0.50 and changePercent of 0.67. -/
def estimateFuelOil05 (brentPrice : Option ℚ) : Quote :=
  let b : ℚ := if jsFalsy brentPrice then 71.80 else brentPrice.getD 0
  let premium : ℚ := 4.0
  let price := b + premium
  ⟨price, 0.50, 0.67, price - 0.50⟩

/-- Embeds `estimateFuelOil380` (src/unnamed/part_000:157-171): default the
benchmark to 71.80 when falsy, subtract a fixed discount of 10.0, and
synthesize a fixed change of -0.30 and changePercent of -0.48. -/
def estimateFuelOil380 (brentPrice : Option ℚ) : Quote :=
  let b : ℚ := if jsFalsy brentPrice then 71.80 else brentPrice.getD 0
  let discount : ℚ := 10.0
  let price := b - discount
  ⟨price, -0.30, -0.48, price + 0.30⟩

/-- Embeds `estimateGas92` (src/unnamed/part_000:173-187): default the
benchmark to 2.28 when falsy, add a fixed adjustment of -0.02, and synthesize
a fixed change of 0.03 and changePercent of 1.35. -/
def estimateGas92 (rbobPrice : Option ℚ) : Quote :=
  let b : ℚ := if jsFalsy rbobPrice then 2.28 else rbobPrice.getD 0
  let adjustment : ℚ := -0.02
  let price := b + adjustment
  ⟨price, 0.03, 1.35, price - 0.03⟩

/-- Embeds the quote construction at the end of `fetchYahooPrice`
(src/server.js:219-227, identical in src/unnamed/part_000:130-138): given the
extracted `latestPrice` and `previousClose`, the returned record has
`change = latestPrice - previousClose` and
`changePercent = change / previousClose * 100`.  The network retrieval and
field extraction above those lines are abstracted into the two inputs.
Division is exact rational division; in JS a zero `previousClose` would yield
a non-finite changePercent, so theorems about this definition assume
`previousClose ≠ 0`. -/
def fetchYahooPriceQuote (latestPrice previousClose : ℚ) : Quote :=
  let change := latestPrice - previousClose
  let changePercent := change / previousClose * 100
  ⟨latestPrice, change, changePercent, previousClose⟩

/-- Embeds the JS expression `o?.price || 0`: 0 when the quote is absent or
its price is 0, otherwise the price. -/
def optPriceOr0 (o : Option Quote) : ℚ :=
  match o with
  | none => 0
  | some q => if q.price == 0 then 0 else q.price

/-- Embeds the `brent_wti` spread (src/server.js:172, src/unnamed/part_000:83):
`(data.brent?.price || 0) - (data.wti?.price || 0)`. -/
def spread_brent_wti (brent wti : Option Quote) : ℚ :=
  optPriceOr0 brent - optPriceOr0 wti

/-- Responses the `/api/energy-data` handler can send: `res.json(body)` with
status 200, or `res.status(500).json(\x7b error \x7d)`. -/
inductive Response (Snap : Type) where
  | ok (body : Snap)
  | serverError (error : String)
  deriving DecidableEq, Repr

/-- The module-level mutable cache (src/unnamed/part_000:12-13):
`cachedData` (initially null) and `lastFetch` (initially 0, milliseconds). -/
structure ServerState (Snap : Type) where
  cachedData : Option Snap
  lastFetch : ℕ
  deriving DecidableEq, Repr

/-- Embeds `CACHE_DURATION = 5 * 60 * 1000` (src/unnamed/part_000:14). -/
def CACHE_DURATION : ℕ := 5 * 60 * 1000

/-- Embeds the `/api/energy-data` handler (src/unnamed/part_000:17-43,
identical in src/server.js:120-146).  Inputs: current state, `Date.now()`,
and the outcome of `await fetchEnergyData()` (whose body is abstracted into
an `Except`; it is only consulted on the paths that call it).  Output: the
response sent, the state after the request, and the number of
`fetchEnergyData` invocations the request performed.
Control flow: if `cachedData` is truthy and `now - lastFetch < CACHE_DURATION`
return the cached data without fetching; otherwise fetch; on success store
the data and timestamp and return it; on a thrown error return the cached
data if present, else a 500 with `\x7b error: string \x7d`. -/
def handleEnergyData {Snap : Type} (st : ServerState Snap) (now : ℕ)
    (fetchResult : Except String Snap) :
    Response Snap × ServerState Snap × ℕ :=
  match st.cachedData with
  | some d =>
    if now - st.lastFetch < CACHE_DURATION then
      (Response.ok d, st, 0)
    else
      match fetchResult with
      | Except.ok data => (Response.ok data, ⟨some data, now⟩, 1)
      | Except.error _ => (Response.ok d, st, 1)
  | none =>
    match fetchResult with
    | Except.ok data => (Response.ok data, ⟨some data, now⟩, 1)
    | Except.error _ =>
      (Response.serverError "Failed to fetch energy data", st, 1)

/-- Helper: `calculateCrack` on present non-zero arguments is
`normalizeProduct p - c`. -/
theorem calculateCrack_eq_normalize (c p : ℚ) (hc : c ≠ 0) (hp : p ≠ 0) :
    calculateCrack (some c) (some p) = normalizeProduct p - c := by
  simp [calculateCrack, normalizeProduct, jsFalsy, hc, hp]

/-- C3: for crude c > 0 and product p > 0, `calculateCrack` returns
`p * 42 - c` when `p < 10` and `p - c` when `p ≥ 10`; at crude 66.50 and
product 2.28 it returns 29.26 (product-as-barrel 95.76). -/
theorem crack_generic_formula (c p : ℚ) (hc : 0 < c) (hp : 0 < p) :
    (p < 10 → calculateCrack (some c) (some p) = p * 42 - c) ∧
    (10 ≤ p → calculateCrack (some c) (some p) = p - c) ∧
    calculateCrack (some 66.50) (some 2.28) = 29.26 ∧
    (2.28 : ℚ) * 42 = 95.76 := by
  have hc' : c ≠ 0 := ne_of_gt hc
  have hp' : p ≠ 0 := ne_of_gt hp
  refine ⟨fun h => ?_, fun h => ?_, by norm_num [calculateCrack, jsFalsy], by norm_num⟩
  · rw [calculateCrack_eq_normalize c p hc' hp']
    simp [normalizeProduct, h]
  · rw [calculateCrack_eq_normalize c p hc' hp']
    simp [normalizeProduct, not_lt.mpr h]

/-- Witness for C3 at crude 66.50, product 2.28. -/
theorem crack_generic_formula_witness :
    calculateCrack (some 66.50) (some 2.28) = 2.28 * 42 - 66.50 :=
  (crack_generic_formula 66.50 2.28 (by norm_num) (by norm_num)).1 (by norm_num)

/-- C4: for non-zero WTI w, RBOB r and heating-oil h, `calculateCrack321`
returns `((2 * (r * 42) + h * 42) / 3) - w`; at w = 66.50, r = 2.28,
h = 2.55 it returns 33.04 (rbobBarrel 95.76, hoBarrel 107.10). -/
theorem crack321_formula (w r h : ℚ) (hw : w ≠ 0) (hr : r ≠ 0) (hh : h ≠ 0) :
    calculateCrack321 (some w) (some r) (some h)
      = ((2 * (r * 42) + h * 42) / 3) - w ∧
    calculateCrack321 (some 66.50) (some 2.28) (some 2.55) = 33.04 ∧
    (2.28 : ℚ) * 42 = 95.76 ∧ (2.55 : ℚ) * 42 = 107.10 := by
  refine ⟨?_, by norm_num [calculateCrack321, jsFalsy], by norm_num, by norm_num⟩
  simp [calculateCrack321, jsFalsy, hw, hr, hh]

/-- Witness for C4 at w = 66.50, r = 2.28, h = 2.55. -/
theorem crack321_formula_witness :
    calculateCrack321 (some 66.50) (some 2.28) (some 2.55)
      = ((2 * ((2.28 : ℚ) * 42) + 2.55 * 42) / 3) - 66.50 :=
  (crack321_formula 66.50 2.28 2.55 (by norm_num) (by norm_num) (by norm_num)).1

/-- C1: on a request where the refresh fails (`fetchEnergyData` throws), if a
prior Snapshot is cached the endpoint responds 200 with that Snapshot
unchanged (and the state is unchanged); it responds 500 with the
`\x7b error: string \x7d` body exactly when no Snapshot has ever been produced. -/
theorem endpoint_refresh_failure_behavior {Snap : Type}
    (st : ServerState Snap) (now : ℕ) (err : String) :
    (∀ d, st.cachedData = some d →
      (handleEnergyData st now (Except.error err)).1 = Response.ok d ∧
      (handleEnergyData st now (Except.error err)).2.1 = st) ∧
    (st.cachedData = none →
      (handleEnergyData st now (Except.error err)).1
        = Response.serverError "Failed to fetch energy data") ∧
    (∀ e, (handleEnergyData st now (Except.error err)).1 = Response.serverError e →
      st.cachedData = none) := by
  obtain ⟨cd, lf⟩ := st
  refine ⟨fun d hd => ?_, fun hn => ?_, fun e he => ?_⟩
  · cases hd
    by_cases h : now - lf < CACHE_DURATION <;>
      simp [handleEnergyData, h]
  · cases hn
    simp [handleEnergyData]
  · cases cd with
    | none => rfl
    | some d =>
      by_cases h : now - lf < CACHE_DURATION <;>
        simp [handleEnergyData, h] at he

/-- Witness for C1: with cached Snapshot 7 the failed refresh still answers
200 with 7 and leaves the state alone; with an empty cache it answers the
500 error body. -/
theorem endpoint_refresh_failure_behavior_witness :
    (handleEnergyData (⟨some 7, 0⟩ : ServerState ℕ) 999999 (Except.error "boom")).1
      = Response.ok 7 ∧
    (handleEnergyData (⟨some 7, 0⟩ : ServerState ℕ) 999999 (Except.error "boom")).2.1
      = ⟨some 7, 0⟩ ∧
    (handleEnergyData (⟨none, 0⟩ : ServerState ℕ) 999999 (Except.error "boom")).1
      = Response.serverError "Failed to fetch energy data" :=
  ⟨((endpoint_refresh_failure_behavior ⟨some 7, 0⟩ 999999 "boom").1 7 rfl).1,
   ((endpoint_refresh_failure_behavior ⟨some 7, 0⟩ 999999 "boom").1 7 rfl).2,
   (endpoint_refresh_failure_behavior ⟨none, 0⟩ 999999 "boom").2.1 rfl⟩

/-- C2: when a cached Snapshot exists and its age is below the 5-minute
window, the request returns that Snapshot with zero `fetchEnergyData`
invocations and no state change; when the age is at or past the window, the
request performs exactly one `fetchEnergyData` invocation. -/
theorem cache_freshness_window {Snap : Type}
    (st : ServerState Snap) (now : ℕ) (fr : Except String Snap) (d : Snap)
    (hd : st.cachedData = some d) :
    (now - st.lastFetch < CACHE_DURATION →
      handleEnergyData st now fr = (Response.ok d, st, 0)) ∧
    (CACHE_DURATION ≤ now - st.lastFetch →
      (handleEnergyData st now fr).2.2 = 1) := by
  obtain ⟨cd, lf⟩ := st
  cases hd
  constructor
  · intro h
    simp [handleEnergyData, h]
  · intro h
    cases fr <;> simp [handleEnergyData, not_lt.mpr h]

/-- Witness for C2: a request 4 minutes after the refresh (age 240000 ms)
returns the cached Snapshot with zero fetches; a request 6 minutes after
(age 360000 ms) performs exactly one fetch. -/
theorem cache_freshness_window_witness :
    handleEnergyData (⟨some 7, 1000⟩ : ServerState ℕ) 241000 (Except.ok 9)
      = (Response.ok 7, ⟨some 7, 1000⟩, 0) ∧
    (handleEnergyData (⟨some 7, 1000⟩ : ServerState ℕ) 361000 (Except.ok 9)).2.2 = 1 :=
  ⟨(cache_freshness_window ⟨some 7, 1000⟩ 241000 (Except.ok 9) 7 rfl).1 (by decide),
   (cache_freshness_window ⟨some 7, 1000⟩ 361000 (Except.ok 9) 7 rfl).2 (by decide)⟩

/-- C9: a failed refresh leaves the cache state (both `cachedData` and
`lastFetch`) unchanged, so a later request whose age is at or past the
freshness window attempts another refresh (one fetch invocation). -/
theorem refresh_failure_cache_unchanged {Snap : Type}
    (st : ServerState Snap) (now now2 : ℕ) (err : String)
    (fr2 : Except String Snap) (d : Snap) (hd : st.cachedData = some d) :
    (handleEnergyData st now (Except.error err)).2.1 = st ∧
    (CACHE_DURATION ≤ now2 - st.lastFetch →
      (handleEnergyData (handleEnergyData st now (Except.error err)).2.1
        now2 fr2).2.2 = 1) := by
  obtain ⟨cd, lf⟩ := st
  cases hd
  have hst : (handleEnergyData (⟨some d, lf⟩ : ServerState Snap) now
      (Except.error err)).2.1 = ⟨some d, lf⟩ := by
    by_cases h : now - lf < CACHE_DURATION <;> simp [handleEnergyData, h]
  refine ⟨hst, fun h2 => ?_⟩
  rw [hst]
  cases fr2 <;> simp [handleEnergyData, not_lt.mpr h2]

/-- Witness for C9: after a failed refresh at 360000 ms the state is still
(some 7, 1000), and a second stale request at 720000 ms performs one fetch. -/
theorem refresh_failure_cache_unchanged_witness :
    (handleEnergyData (⟨some 7, 1000⟩ : ServerState ℕ) 360000
        (Except.error "boom")).2.1 = ⟨some 7, 1000⟩ ∧
    (handleEnergyData
        (handleEnergyData (⟨some 7, 1000⟩ : ServerState ℕ) 360000
          (Except.error "boom")).2.1
        720000 (Except.error "boom2")).2.2 = 1 :=
  ⟨(refresh_failure_cache_unchanged ⟨some 7, 1000⟩ 360000 720000 "boom"
      (Except.error "boom2") 7 rfl).1,
   (refresh_failure_cache_unchanged ⟨some 7, 1000⟩ 360000 720000 "boom"
      (Except.error "boom2") 7 rfl).2 (by decide)⟩

/-- Helper: `o?.price || 0` equals the price whenever the quote is present
(a zero price coerces to the same value 0). -/
theorem optPriceOr0_some (q : Quote) : optPriceOr0 (some q) = q.price := by
  by_cases h : q.price = 0 <;> simp [optPriceOr0, h]

/-- C5 counterexample: at WTI 66.50 and product prices 15 (≥ 10),
`calculateCrack321` still multiplies by 42 (yielding 563.50), while the
claimed shared rule (multiply by 42 iff the price is below 10, as
`calculateCrack` does) would yield -51.50. -/
theorem crack321_normalization_not_shared :
    calculateCrack321 (some 66.50) (some 15) (some 15)
      ≠ crack321_specNormalized (some 66.50) (some 15) (some 15) ∧
    calculateCrack321 (some 66.50) (some 15) (some 15) = 563.50 ∧
    crack321_specNormalized (some 66.50) (some 15) (some 15) = -51.50 ∧
    calculateCrack (some 66.50) (some 15) = 15 - 66.50 := by
  refine ⟨?_, ?_, ?_, ?_⟩ <;>
    norm_num [calculateCrack321, crack321_specNormalized, calculateCrack,
      normalizeProduct, jsFalsy]

/-- C5 amended: `calculateCrack321` multiplies both product prices by 42
unconditionally; it agrees with the per-product normalization rule of
`calculateCrack` (multiply by 42 iff the price is below 10) exactly when
both product prices are below 10. -/
theorem crack321_normalization_amended (w r h : ℚ)
    (hw : w ≠ 0) (hr : r ≠ 0) (hh : h ≠ 0) :
    calculateCrack321 (some w) (some r) (some h)
      = ((2 * (r * 42) + h * 42) / 3) - w ∧
    (r < 10 → h < 10 →
      calculateCrack321 (some w) (some r) (some h)
        = crack321_specNormalized (some w) (some r) (some h)) := by
  constructor
  · simp [calculateCrack321, jsFalsy, hw, hr, hh]
  · intro hr10 hh10
    simp [calculateCrack321, crack321_specNormalized, normalizeProduct,
      jsFalsy, hw, hr, hh, hr10, hh10]

/-- Witness for C5's amended claim at w = 66.50, r = 2.28, h = 2.55. -/
theorem crack321_normalization_amended_witness :
    calculateCrack321 (some 66.50) (some 2.28) (some 2.55)
      = crack321_specNormalized (some 66.50) (some 2.28) (some 2.55) :=
  (crack321_normalization_amended 66.50 2.28 2.55 (by norm_num) (by norm_num)
    (by norm_num)).2 (by norm_num) (by norm_num)

/-- C6 counterexample: with the brent quote absent and a WTI quote of price
66.50 present, the `brent_wti` spread is -66.50, not 0 as the claim states
for "either absent". -/
theorem brent_wti_absent_not_zero :
    spread_brent_wti none (some ⟨66.50, 0.80, 1.22, 65.70⟩) ≠ 0 ∧
    spread_brent_wti none (some ⟨66.50, 0.80, 1.22, 65.70⟩) = -66.50 := by
  constructor <;> norm_num [spread_brent_wti, optPriceOr0]

/-- C6 amended: the `brent_wti` spread substitutes 0 for an absent quote's
price on each side: it is `brent.price - wti.price` when both are present,
`-wti.price` when only brent is absent, `brent.price` when only wti is
absent, and 0 when both are absent. -/
theorem brent_wti_spread_cases (ob ow : Option Quote) :
    (∀ qb qw, ob = some qb → ow = some qw →
      spread_brent_wti ob ow = qb.price - qw.price) ∧
    (∀ qw, ob = none → ow = some qw →
      spread_brent_wti ob ow = -qw.price) ∧
    (∀ qb, ob = some qb → ow = none →
      spread_brent_wti ob ow = qb.price) ∧
    (ob = none → ow = none → spread_brent_wti ob ow = 0) := by
  have hnone : optPriceOr0 none = 0 := rfl
  refine ⟨fun qb qw hb hw => ?_, fun qw hb hw => ?_,
    fun qb hb hw => ?_, fun hb hw => ?_⟩ <;>
    subst hb <;> subst hw <;>
    simp [spread_brent_wti, optPriceOr0_some, hnone]

/-- Witness for C6's amended claim: both quotes present gives the price
difference; brent absent gives the negated WTI price. -/
theorem brent_wti_spread_cases_witness :
    spread_brent_wti (some ⟨71.80, 0.90, 1.27, 70.90⟩)
      (some ⟨66.50, 0.80, 1.22, 65.70⟩) = 71.80 - 66.50 ∧
    spread_brent_wti none (some ⟨66.50, 0.80, 1.22, 65.70⟩) = -(66.50 : ℚ) :=
  ⟨(brent_wti_spread_cases (some ⟨71.80, 0.90, 1.27, 70.90⟩)
      (some ⟨66.50, 0.80, 1.22, 65.70⟩)).1 _ _ rfl rfl,
   (brent_wti_spread_cases none
      (some ⟨66.50, 0.80, 1.22, 65.70⟩)).2.1 _ rfl rfl⟩

/-- C7 counterexample: the estimator quote `estimateFuelOil05 (some 1)` has
price 5, previousClose 4.5 (non-zero) and changePercent 0.67, but
`(price - previousClose) / previousClose * 100 = 100/9 ≈ 11.11`; the gap
exceeds 10, far beyond any floating tolerance. -/
theorem estimator_changePercent_mismatch :
    (estimateFuelOil05 (some 1)).changePercent
      ≠ ((estimateFuelOil05 (some 1)).price
          - (estimateFuelOil05 (some 1)).previousClose)
        / (estimateFuelOil05 (some 1)).previousClose * 100 ∧
    (estimateFuelOil05 (some 1)).previousClose ≠ 0 ∧
    10 < |(estimateFuelOil05 (some 1)).changePercent
      - ((estimateFuelOil05 (some 1)).price
          - (estimateFuelOil05 (some 1)).previousClose)
        / (estimateFuelOil05 (some 1)).previousClose * 100| := by
  refine ⟨by norm_num [estimateFuelOil05, jsFalsy],
    by norm_num [estimateFuelOil05, jsFalsy], ?_⟩
  have h : (estimateFuelOil05 (some 1)).changePercent
      - ((estimateFuelOil05 (some 1)).price
          - (estimateFuelOil05 (some 1)).previousClose)
        / (estimateFuelOil05 (some 1)).previousClose * 100
      = -(9397 / 900) := by
    norm_num [estimateFuelOil05, jsFalsy]
  rw [h, abs_neg, abs_of_pos (by norm_num : (0 : ℚ) < 9397 / 900)]
  norm_num

/-- C7 amended: quotes built by `fetchYahooPrice` satisfy the changePercent
identity exactly whenever previousClose is non-zero, while the estimator
quotes carry fixed changePercent constants (0.67, -0.48, 1.35) independent
of the benchmark, which need not satisfy the identity. -/
theorem changePercent_identity_amended (latest prev : ℚ) (_hprev : prev ≠ 0)
    (b : Option ℚ) :
    (fetchYahooPriceQuote latest prev).changePercent
      = ((fetchYahooPriceQuote latest prev).price
          - (fetchYahooPriceQuote latest prev).previousClose)
        / (fetchYahooPriceQuote latest prev).previousClose * 100 ∧
    (fetchYahooPriceQuote latest prev).change
      = (fetchYahooPriceQuote latest prev).price
        - (fetchYahooPriceQuote latest prev).previousClose ∧
    (estimateFuelOil05 b).changePercent = 0.67 ∧
    (estimateFuelOil380 b).changePercent = -0.48 ∧
    (estimateGas92 b).changePercent = 1.35 := by
  refine ⟨rfl, rfl, ?_, ?_, ?_⟩ <;>
    simp [estimateFuelOil05, estimateFuelOil380, estimateGas92]

/-- Witness for C7's amended claim at latest 66.50, previousClose 65.70,
benchmark 71.80. -/
theorem changePercent_identity_amended_witness :
    (fetchYahooPriceQuote 66.50 65.70).changePercent
      = ((fetchYahooPriceQuote 66.50 65.70).price
          - (fetchYahooPriceQuote 66.50 65.70).previousClose)
        / (fetchYahooPriceQuote 66.50 65.70).previousClose * 100 ∧
    (estimateFuelOil05 (some 71.80)).changePercent = 0.67 :=
  ⟨(changePercent_identity_amended 66.50 65.70 (by norm_num) (some 71.80)).1,
   (changePercent_identity_amended 66.50 65.70 (by norm_num)
      (some 71.80)).2.2.1⟩

/-- C8 counterexample: each estimator returns price 0 at the benchmark equal
to the negated offset, all of them truthy (so no default is substituted):
benchmark -4 for fuel oil 0.5%, 10 for fuel oil 380, 0.02 for gasoline 92. -/
theorem estimator_price_zero :
    (estimateFuelOil05 (some (-4))).price = 0 ∧
    (estimateFuelOil380 (some 10)).price = 0 ∧
    (estimateGas92 (some 0.02)).price = 0 := by
  refine ⟨?_, ?_, ?_⟩ <;>
    norm_num [estimateFuelOil05, estimateFuelOil380, estimateGas92, jsFalsy]

/-- C8 amended: each estimator is total; when the benchmark is absent (or 0,
also falsy) the fixed default (71.80, 71.80, 2.28) is substituted before the
offset, yielding non-zero prices 75.80, 61.80 and 2.26; for a present
non-zero benchmark the price is non-zero unless the benchmark equals the
negated offset (-4, 10, 0.02 respectively). -/
theorem estimators_amended (b : Option ℚ) :
    (jsFalsy b = true →
      estimateFuelOil05 b = estimateFuelOil05 none ∧
      estimateFuelOil380 b = estimateFuelOil380 none ∧
      estimateGas92 b = estimateGas92 none) ∧
    (estimateFuelOil05 none).price = 75.80 ∧
    (estimateFuelOil380 none).price = 61.80 ∧
    (estimateGas92 none).price = 2.26 ∧
    (∀ x, b = some x → x ≠ 0 →
      (x ≠ -4 → (estimateFuelOil05 b).price ≠ 0) ∧
      (x ≠ 10 → (estimateFuelOil380 b).price ≠ 0) ∧
      (x ≠ 0.02 → (estimateGas92 b).price ≠ 0)) := by
  refine ⟨fun hf => ?_, by norm_num [estimateFuelOil05, jsFalsy],
    by norm_num [estimateFuelOil380, jsFalsy],
    by norm_num [estimateGas92, jsFalsy], fun x hb hx => ?_⟩
  · have hfn : jsFalsy none = true := rfl
    simp [estimateFuelOil05, estimateFuelOil380, estimateGas92, hf, hfn]
  · subst hb
    have hfx : jsFalsy (some x) = false := by simp [jsFalsy, hx]
    have h05 : (estimateFuelOil05 (some x)).price = x + 4 := by
      norm_num [estimateFuelOil05, hfx]
    have h380 : (estimateFuelOil380 (some x)).price = x - 10 := by
      norm_num [estimateFuelOil380, hfx]
    have h92 : (estimateGas92 (some x)).price = x - 0.02 := by
      norm_num [estimateGas92, hfx]
      try ring
    refine ⟨fun h4 hc => h4 ?_, fun h10 hc => h10 ?_, fun h02 hc => h02 ?_⟩
    · rw [h05] at hc
      linarith
    · rw [h380] at hc
      linarith
    · rw [h92] at hc
      linarith

/-- Witness for C8's amended claim: a zero benchmark is defaulted (price
75.80 for fuel oil 0.5%), and benchmark 50 gives non-zero prices. -/
theorem estimators_amended_witness :
    (estimateFuelOil05 (some 0)).price = 75.80 ∧
    (estimateFuelOil380 (some 50)).price ≠ 0 :=
  ⟨((estimators_amended (some 0)).1 (by decide)).1.symm ▸
      (estimators_amended (some 0)).2.1,
   ((estimators_amended (some 50)).2.2.2.2 50 rfl (by norm_num)).2.1
      (by norm_num)⟩

/-- C10: for every benchmark input, each estimator's quote satisfies
`change = price - previousClose` exactly, because previousClose is
constructed as the price minus (or plus) the fixed change delta. -/
theorem estimator_change_invariant (b : Option ℚ) :
    (estimateFuelOil05 b).change
      = (estimateFuelOil05 b).price - (estimateFuelOil05 b).previousClose ∧
    (estimateFuelOil380 b).change
      = (estimateFuelOil380 b).price - (estimateFuelOil380 b).previousClose ∧
    (estimateGas92 b).change
      = (estimateGas92 b).price - (estimateGas92 b).previousClose := by
  refine ⟨?_, ?_, ?_⟩ <;>
    simp [estimateFuelOil05, estimateFuelOil380, estimateGas92]

end MonMon
